import Mathlib

/-
Verification of the solar-thermal controller (automatedhome/solar).

The embedding follows `src/cmd/main.go` (the current revision, namespace
`Solar`) and the earlier MQTT-based revision contained in
`src/unnamed/part_001` (namespace `SolarV1`).  Temperatures, duty values
and thresholds are modelled as rationals (the Go code uses float64 and
the algorithms are plain field arithmetic); timestamps are modelled as
integers counting seconds.  Actuator I/O is modelled by an explicit
oracle saying which commands succeed, and each loop iteration (`tick`)
returns the successor state together with the list of actuator commands
it issued and the stop/counter events it produced.
-/

namespace Solar

/-- A sensor or settings slot; mirrors `common.DataPoint` as used by
`src/cmd/main.go` (the MQTT `Address` / EVOK routing data is I/O plumbing
and is not part of the control logic). -/
structure DataPoint where
  Value : ℚ
deriving DecidableEq, Repr

/-- The anonymous `Flow` sub-struct of `types.Settings`: flow-curve
configuration, field order as in `src/pkg/types/types.go`. -/
structure FlowSettings where
  DutyMin : DataPoint
  TempMin : DataPoint
  DutyMax : DataPoint
  TempMax : DataPoint
deriving DecidableEq, Repr

/-- `types.Settings` from `src/pkg/types/types.go`. -/
structure Settings where
  SolarCritical : DataPoint
  SolarOn : DataPoint
  SolarOff : DataPoint
  TankMax : DataPoint
  Flow : FlowSettings
deriving DecidableEq, Repr

/-- `types.Sensors` from `src/pkg/types/types.go`. -/
structure Sensors where
  SolarUp : DataPoint
  SolarIn : DataPoint
  SolarOut : DataPoint
  TankUp : DataPoint
deriving DecidableEq, Repr

/-- The three actuators addressed through the EVOK gateway
(`actuators.Pump`, `actuators.Switch`, `actuators.Flow`). -/
inductive Device where
  | Pump
  | Switch
  | Flow
deriving DecidableEq, Repr

/-- One actuator write issued through `setEvokSingleValue`:
the target device and the value posted to it. -/
structure Command where
  dev : Device
  value : ℚ
deriving DecidableEq, Repr

/-- An I/O oracle: which actuator commands the EVOK gateway accepts
(`true`) and which fail with an error (`false`). -/
def Oracle : Type := Command → Bool

/-- The value actually written by `setFlow` in `src/cmd/main.go`:
when `invertFlow` is set the commanded flow is flipped as `10.0 - value`. -/
def setFlowValue (invertFlow : Bool) (value : ℚ) : ℚ :=
  if invertFlow then 10 - value else value

/-- The actuator command issued by `setFlow` in `src/cmd/main.go`. -/
def setFlowCommand (invertFlow : Bool) (value : ℚ) : Command :=
  ⟨Device.Flow, setFlowValue invertFlow value⟩

/-- `stop` from `src/cmd/main.go` (lines 256-281): when the circuit is
running, command pump OFF, then valve OFF, then flow to `DutyMin`; abort
on the first failing command leaving `circuitRunning` unchanged; only
after all three succeed set `circuitRunning = false`.  Returns the new
`circuitRunning` flag and the list of commands issued, in order. -/
def stop (oracle : Oracle) (invertFlow : Bool) (settings : Settings)
    (circuitRunning : Bool) : Bool × List Command :=
  if circuitRunning then
    let c1 : Command := ⟨Device.Pump, 0⟩
    if oracle c1 then
      let c2 : Command := ⟨Device.Switch, 0⟩
      if oracle c2 then
        let c3 : Command := setFlowCommand invertFlow settings.Flow.DutyMin.Value
        if oracle c3 then
          (false, [c1, c2, c3])
        else
          (circuitRunning, [c1, c2, c3])
      else
        (circuitRunning, [c1, c2])
    else
      (circuitRunning, [c1])
  else
    (circuitRunning, [])

/-- `start` from `src/cmd/main.go` (lines 283-302): when the circuit is
not running, command pump ON then valve ON; abort on the first failing
command leaving `circuitRunning` unchanged; after both succeed set
`circuitRunning = true`. -/
def start (oracle : Oracle) (circuitRunning : Bool) : Bool × List Command :=
  if !circuitRunning then
    let c1 : Command := ⟨Device.Pump, 1⟩
    if oracle c1 then
      let c2 : Command := ⟨Device.Switch, 1⟩
      if oracle c2 then
        (true, [c1, c2])
      else
        (circuitRunning, [c1, c2])
    else
      (circuitRunning, [c1])
  else
    (circuitRunning, [])

/-- `calculateFlow` from `src/cmd/main.go` (lines 311-339): piecewise
linear map from the temperature delta to a duty value, clamped into
`[DutyMin, DutyMax]` after the linear segment. -/
def calculateFlow (settings : Settings) (delta : ℚ) : ℚ :=
  if delta ≤ settings.Flow.TempMin.Value then
    settings.Flow.DutyMin.Value
  else if delta ≥ settings.Flow.TempMax.Value then
    settings.Flow.DutyMax.Value
  else
    let a := (settings.Flow.DutyMax.Value - settings.Flow.DutyMin.Value) /
      (settings.Flow.TempMax.Value - settings.Flow.TempMin.Value)
    let b := settings.Flow.DutyMin.Value - settings.Flow.TempMin.Value * a
    let flow := a * delta + b
    let flow1 := if flow > settings.Flow.DutyMax.Value then settings.Flow.DutyMax.Value else flow
    let flow2 := if flow1 < settings.Flow.DutyMin.Value then settings.Flow.DutyMin.Value else flow1
    flow2

/-- `calculateTemperature` from `src/cmd/main.go`: panel sensor voltage
to temperature. -/
def calculateTemperature (voltage : ℚ) : ℚ :=
  voltage * (200 - 0) / 12 + 0

/-- The temperature delta computed at the top of every loop iteration in
`main` (`src/cmd/main.go` line 548): `(SolarUp + SolarOut) / 2 - SolarIn`. -/
def delta (sensors : Sensors) : ℚ :=
  (sensors.SolarUp.Value + sensors.SolarOut.Value) / 2 - sensors.SolarIn.Value

/-- The reason string handed to `stop` by each call site in `main`,
abstracted to its format string plus the formatted value. -/
inductive StopReason where
  | criticalSolarTemperature (value : ℚ)
  | tankFilled (value : ℚ)
  | heatEscape (delta : ℚ)
  | deltaTooLow (delta : ℚ)
  | systemReset
deriving DecidableEq, Repr

/-- The mutable state carried across iterations of the control loop in
`main`: the global `circuitRunning` flag, the loop-local `reducedMode`
flag and `reducedTill` deadline, the published `systemStatus.Mode`
string, and the health-check timestamp `lastPass` (seconds). -/
structure LoopState where
  circuitRunning : Bool
  reducedMode : Bool
  reducedTill : ℤ
  mode : String
  lastPass : ℤ
deriving DecidableEq, Repr

/-- Everything one loop iteration produces: the successor state, the
actuator commands issued (in order), which `stop` call was made (if
any), and which Prometheus counters were incremented. -/
structure TickResult where
  state : LoopState
  commands : List Command
  stopCall : Option StopReason
  failsafeInc : Bool
  tankfullInc : Bool
  heatescapeInc : Bool
deriving DecidableEq, Repr

/-- `reductionDuration` in `main`: hardcoded `30 * time.Minute`,
in seconds. -/
def reductionDuration : ℤ := 30 * 60

/-- One iteration of the infinite `for` loop in `main`
(`src/cmd/main.go` lines 544-604): update `lastPass`, compute the delta,
evaluate the three guards in order (critical temperature, tank full,
heat escape), otherwise select between the modulating branch
(`delta > SolarOff`), the reduced-mode hold (`now < reducedTill`) and
the low-delta shutdown.  `now` is the value of `time.Now()` for this
iteration. -/
def tick (oracle : Oracle) (invertFlow : Bool) (sensors : Sensors)
    (settings : Settings) (now : ℤ) (s : LoopState) : TickResult :=
  let s := { s with lastPass := now }
  let d := delta sensors
  if sensors.SolarUp.Value ≥ settings.SolarCritical.Value then
    let r := stop oracle invertFlow settings s.circuitRunning
    { state := { s with mode := "failsafe shutdown", circuitRunning := r.1 }
      commands := r.2
      stopCall := some (StopReason.criticalSolarTemperature sensors.SolarUp.Value)
      failsafeInc := true, tankfullInc := false, heatescapeInc := false }
  else if sensors.TankUp.Value > settings.TankMax.Value then
    let r := stop oracle invertFlow settings s.circuitRunning
    { state := { s with mode := "tank filled", circuitRunning := r.1 }
      commands := r.2
      stopCall := some (StopReason.tankFilled sensors.TankUp.Value)
      failsafeInc := false, tankfullInc := true, heatescapeInc := false }
  else if d < 0 then
    let r := stop oracle invertFlow settings s.circuitRunning
    { state := { s with mode := "heat escape prevention mode", circuitRunning := r.1 }
      commands := r.2
      stopCall := some (StopReason.heatEscape d)
      failsafeInc := false, tankfullInc := false, heatescapeInc := true }
  else if d > settings.SolarOff.Value then
    let w :=
      if d ≥ settings.SolarOn.Value ∧ sensors.SolarUp.Value > sensors.SolarOut.Value then
        ("working", start oracle s.circuitRunning)
      else
        (s.mode, (s.circuitRunning, ([] : List Command)))
    let fc := setFlowCommand invertFlow (calculateFlow settings d)
    { state := { s with mode := w.1, circuitRunning := w.2.1,
                        reducedTill := now + reductionDuration }
      commands := w.2.2 ++ [fc]
      stopCall := none
      failsafeInc := false, tankfullInc := false, heatescapeInc := false }
  else if now < s.reducedTill then
    if !s.reducedMode then
      let fc := setFlowCommand invertFlow settings.Flow.DutyMin.Value
      { state := { s with mode := "reduced mode", reducedMode := oracle fc }
        commands := [fc]
        stopCall := none
        failsafeInc := false, tankfullInc := false, heatescapeInc := false }
    else
      { state := s, commands := [], stopCall := none
        failsafeInc := false, tankfullInc := false, heatescapeInc := false }
  else
    let r := stop oracle invertFlow settings s.circuitRunning
    { state := { s with mode := "stopped", reducedMode := false, circuitRunning := r.1 }
      commands := r.2
      stopCall := some (StopReason.deltaTooLow d)
      failsafeInc := false, tankfullInc := false, heatescapeInc := false }

/-- Run the control loop over a list of (timestamp, sensor snapshot)
pairs, returning the final state and the per-tick results in order. -/
def runTicks (oracle : Oracle) (invertFlow : Bool) (settings : Settings) :
    LoopState → List (ℤ × Sensors) → LoopState × List TickResult
  | s, [] => (s, [])
  | s, (t, sens) :: rest =>
      let r := tick oracle invertFlow sens settings t s
      let p := runTicks oracle invertFlow settings r.state rest
      (p.1, r :: p.2)

/-- None of the three guards at the top of a tick fires: the panel is
below the critical temperature, the tank is not above `TankMax`, and the
delta is not negative. -/
def guardsPass (sensors : Sensors) (settings : Settings) : Prop :=
  sensors.SolarUp.Value < settings.SolarCritical.Value ∧
  sensors.TankUp.Value ≤ settings.TankMax.Value ∧
  0 ≤ delta sensors

instance (sensors : Sensors) (settings : Settings) :
    Decidable (guardsPass sensors settings) := by
  unfold guardsPass
  infer_instance

/-- `httpHealthCheck` from `src/cmd/main.go` (lines 431-438): respond
200 when `lastPass + 1 minute` is after the current time, 500 otherwise.
Times in seconds. -/
def httpHealthCheck (lastPass now : ℤ) : ℕ :=
  if lastPass + 60 > now then 200 else 500

end Solar

namespace SolarV1

/-
Embedding of the earlier MQTT-based revision of the controller, the
second document of `src/unnamed/part_001` (its `main` loop is at flat
file lines 453-499).  Sensor/settings shapes are the same `DataPoint`
records, so the `Solar` structures are reused.  Actuator writes are MQTT
publishes to the pump / switch / flow topics; publish errors are ignored
by this revision, so no I/O oracle is needed.  Payloads are modelled as
the rational value published (the code formats them with `%.2f`).
-/

open Solar (DataPoint FlowSettings Settings Sensors)

/-- One MQTT publish to an actuator topic in the `part_001` revision. -/
inductive Publish where
  | Pump (payload : ℚ)
  | Sw (payload : ℚ)
  | Flow (payload : ℚ)
deriving DecidableEq, Repr

/-- `stop` of the `part_001` revision: when running, publish pump 0,
switch 0, flow `DutyMin` and clear `circuitRunning` (publish results are
ignored, so the transition always completes). -/
def stop (settings : Settings) (circuitRunning : Bool) : Bool × List Publish :=
  if circuitRunning then
    (false, [Publish.Pump 0, Publish.Sw 0, Publish.Flow settings.Flow.DutyMin.Value])
  else
    (circuitRunning, [])

/-- `start` of the `part_001` revision: when not running, publish pump 1,
switch 1 and set `circuitRunning`. -/
def start (circuitRunning : Bool) : Bool × List Publish :=
  if !circuitRunning then
    (true, [Publish.Pump 1, Publish.Sw 1])
  else
    (circuitRunning, [])

/-- `calculateFlow` of the `part_001` revision: it reads its own delta
`SolarIn - SolarOut` from the sensor snapshot and applies the piecewise
linear map without the final clamp of the current revision. -/
def calculateFlow (sensors : Sensors) (settings : Settings) : ℚ :=
  let delta := sensors.SolarIn.Value - sensors.SolarOut.Value
  if delta ≤ settings.Flow.TempMin.Value then
    settings.Flow.DutyMin.Value
  else if delta ≥ settings.Flow.TempMax.Value then
    settings.Flow.DutyMax.Value
  else
    let a := (settings.Flow.DutyMax.Value - settings.Flow.DutyMin.Value) /
      (settings.Flow.TempMax.Value - settings.Flow.TempMin.Value)
    let b := settings.Flow.DutyMin.Value - settings.Flow.TempMin.Value * a
    a * delta + b

/-- The conditional delta formula of the `part_001` revision main loop. -/
def delta (sensors : Sensors) : ℚ :=
  if sensors.SolarUp.Value ≥ sensors.SolarIn.Value then
    (sensors.SolarUp.Value + sensors.SolarIn.Value) / 2 - sensors.SolarOut.Value
  else
    sensors.SolarUp.Value - sensors.SolarOut.Value

/-- Loop state of the `part_001` revision: `circuitRunning`, the
`reducedSent` flag, the `reducedTill` deadline and the last published
flow value `lastFlow`. -/
structure LoopState where
  circuitRunning : Bool
  reducedSent : Bool
  reducedTill : ℤ
  lastFlow : ℚ
deriving DecidableEq, Repr

/-- Result of one `part_001` loop iteration: successor state and the
publishes issued, in order. -/
structure TickResult where
  state : LoopState
  publishes : List Publish
deriving DecidableEq, Repr

/-- One iteration of the `part_001` revision main loop: guards (critical
temperature, heat escape `SolarOut >= SolarUp`, tank full), then the
modulating branch (`delta >= SolarOff`) which publishes the computed
flow only when it differs from `lastFlow`, the reduced hold, and the
low-delta shutdown. -/
def tick (sensors : Sensors) (settings : Settings) (now : ℤ)
    (s : LoopState) : TickResult :=
  if sensors.SolarUp.Value ≥ settings.SolarCritical.Value then
    let r := stop settings s.circuitRunning
    ⟨{ s with circuitRunning := r.1 }, r.2⟩
  else if sensors.SolarOut.Value ≥ sensors.SolarUp.Value then
    let r := stop settings s.circuitRunning
    ⟨{ s with circuitRunning := r.1 }, r.2⟩
  else if sensors.TankUp.Value > settings.TankMax.Value then
    let r := stop settings s.circuitRunning
    ⟨{ s with circuitRunning := r.1 }, r.2⟩
  else
    let d := delta sensors
    if d ≥ settings.SolarOff.Value then
      let r :=
        if sensors.SolarUp.Value - sensors.SolarOut.Value > settings.SolarOn.Value then
          start s.circuitRunning
        else
          (s.circuitRunning, ([] : List Publish))
      let fl := calculateFlow sensors settings
      if fl ≠ s.lastFlow then
        ⟨{ s with circuitRunning := r.1, lastFlow := fl, reducedTill := now + 1800 },
          r.2 ++ [Publish.Flow fl]⟩
      else
        ⟨{ s with circuitRunning := r.1, reducedTill := now + 1800 }, r.2⟩
    else if now < s.reducedTill then
      if !s.reducedSent then
        ⟨{ s with reducedSent := true }, [Publish.Flow settings.Flow.DutyMin.Value]⟩
      else
        ⟨s, []⟩
    else
      let r := stop settings s.circuitRunning
      ⟨{ s with reducedSent := false, circuitRunning := r.1 }, r.2⟩

end SolarV1

/-- A sample flow-curve configuration used by the concrete witnesses:
the one from the specification example (`TempMin=5, TempMax=9,
DutyMin=1.8, DutyMax=3.0`). -/
def sampleFlow : Solar.FlowSettings :=
  { DutyMin := ⟨9 / 5⟩, TempMin := ⟨5⟩, DutyMax := ⟨3⟩, TempMax := ⟨9⟩ }

/-- A sample settings record used by the concrete witnesses. -/
def sampleSettings : Solar.Settings :=
  { SolarCritical := ⟨90⟩, SolarOn := ⟨8⟩, SolarOff := ⟨5⟩, TankMax := ⟨60⟩
    Flow := sampleFlow }

/-- A sensor snapshot whose delta `(50 + 30) / 2 - 30 = 10` drives the
modulating branch of the current revision. -/
def sampleSensorsHot : Solar.Sensors :=
  { SolarUp := ⟨50⟩, SolarIn := ⟨30⟩, SolarOut := ⟨30⟩, TankUp := ⟨40⟩ }

/-- A sensor snapshot whose delta `(31 + 29) / 2 - 27 = 3` falls into
the reduced-mode band `0 ≤ delta ≤ SolarOff`. -/
def sampleSensorsMild : Solar.Sensors :=
  { SolarUp := ⟨31⟩, SolarIn := ⟨27⟩, SolarOut := ⟨29⟩, TankUp := ⟨40⟩ }

/-- The initial loop state of the current revision: circuit stopped,
reduced mode off. -/
def initialState : Solar.LoopState :=
  { circuitRunning := false, reducedMode := false, reducedTill := 0
    mode := "startup", lastPass := 0 }

/-- The all-success I/O oracle: every actuator command is accepted. -/
def okOracle : Solar.Oracle := fun _ => true

/-- Concrete run, first tick: modulating inputs at time 0 from the
initial state. -/
def tickHot0 : Solar.TickResult :=
  Solar.tick okOracle false sampleSensorsHot sampleSettings 0 initialState

/-- Concrete run, second tick with the very same modulating inputs at
time 5. -/
def tickHot1 : Solar.TickResult :=
  Solar.tick okOracle false sampleSensorsHot sampleSettings 5 tickHot0.state

/-- Concrete run: reduced-band inputs at time 100 following the
modulating tick `tickHot0`. -/
def tickMild1 : Solar.TickResult :=
  Solar.tick okOracle false sampleSensorsMild sampleSettings 100 tickHot0.state

/-- Concrete run: one further reduced-band tick at time 200. -/
def runMild : Solar.LoopState × List Solar.TickResult :=
  Solar.runTicks okOracle false sampleSettings tickMild1.state [(200, sampleSensorsMild)]

/-- Concrete run: reduced-band inputs at time 1800, the deadline set by
`tickHot0`. -/
def tickMildLate : Solar.TickResult :=
  Solar.tick okOracle false sampleSensorsMild sampleSettings 1800 runMild.1

/-- Concrete run for the reduced-flag persistence claim: reduced-band
entry at time 10 from a state whose `reducedTill` is 1000. -/
def tickC7A : Solar.TickResult :=
  Solar.tick okOracle false sampleSensorsMild sampleSettings 10
    { initialState with reducedTill := 1000 }

/-- Concrete run: modulating inputs at time 20 after the reduced entry. -/
def tickC7B : Solar.TickResult :=
  Solar.tick okOracle false sampleSensorsHot sampleSettings 20 tickC7A.state

/-- Concrete run: reduced-band inputs at time 30, inside the window
pushed by `tickC7B`. -/
def tickC7C : Solar.TickResult :=
  Solar.tick okOracle false sampleSensorsMild sampleSettings 30 tickC7B.state

/-- Initial loop state of the `part_001` revision. -/
def v1State0 : SolarV1.LoopState :=
  { circuitRunning := false, reducedSent := false, reducedTill := 0, lastFlow := 0 }

/-- `part_001` revision, first tick on modulating inputs at time 0. -/
def v1Tick1 : SolarV1.TickResult :=
  SolarV1.tick sampleSensorsHot sampleSettings 0 v1State0

/-- `part_001` revision, second tick with the very same inputs at time 5. -/
def v1Tick2 : SolarV1.TickResult :=
  SolarV1.tick sampleSensorsHot sampleSettings 5 v1Tick1.state

/-- Claim C2: with `TempMax > TempMin` and `DutyMax ≥ DutyMin`, the flow
mapping stays within `[DutyMin, DutyMax]` for every input delta, and it
is monotone non-decreasing in the delta. -/
theorem calculateFlow_bounded_monotone (settings : Solar.Settings) (d1 d2 : ℚ)
    (ht : settings.Flow.TempMin.Value < settings.Flow.TempMax.Value)
    (hd : settings.Flow.DutyMin.Value ≤ settings.Flow.DutyMax.Value) :
    (settings.Flow.DutyMin.Value ≤ Solar.calculateFlow settings d1 ∧
      Solar.calculateFlow settings d1 ≤ settings.Flow.DutyMax.Value) ∧
    (d1 ≤ d2 → Solar.calculateFlow settings d1 ≤ Solar.calculateFlow settings d2) := by
  have ha : 0 ≤ (settings.Flow.DutyMax.Value - settings.Flow.DutyMin.Value) /
      (settings.Flow.TempMax.Value - settings.Flow.TempMin.Value) :=
    div_nonneg (by linarith) (by linarith)
  constructor
  · simp only [Solar.calculateFlow]
    split_ifs <;> constructor <;> linarith
  · intro h12
    have hmul := mul_le_mul_of_nonneg_left h12 ha
    simp only [Solar.calculateFlow]
    split_ifs <;> linarith

/-- Witness for C2 at the sample configuration, with deltas `-100` and
`100` (far outside `[TempMin, TempMax] = [5, 9]`). -/
theorem calculateFlow_bounded_monotone_witness :
    (sampleSettings.Flow.DutyMin.Value ≤ Solar.calculateFlow sampleSettings (-100) ∧
      Solar.calculateFlow sampleSettings (-100) ≤ sampleSettings.Flow.DutyMax.Value) ∧
    Solar.calculateFlow sampleSettings (-100) ≤ Solar.calculateFlow sampleSettings 100 :=
  ⟨(calculateFlow_bounded_monotone sampleSettings (-100) 100 (by norm_num [sampleSettings, sampleFlow])
      (by norm_num [sampleSettings, sampleFlow])).1,
    (calculateFlow_bounded_monotone sampleSettings (-100) 100 (by norm_num [sampleSettings, sampleFlow])
      (by norm_num [sampleSettings, sampleFlow])).2 (by norm_num)⟩

/-- Claim C8: with the flow curve `TempMin=5, TempMax=9, DutyMin=1.8,
DutyMax=3.0`, the mapping sends `delta = 7` to exactly `2.4`, the value
of the linear interpolation `1.8 + (3.0-1.8)/(9-5)*(7-5)`. -/
theorem calculateFlow_spec_example :
    Solar.calculateFlow sampleSettings 7 = 1.8 + (3.0 - 1.8) / (9 - 5) * (7 - 5) ∧
    Solar.calculateFlow sampleSettings 7 = 2.4 := by
  constructor <;> norm_num [Solar.calculateFlow, sampleSettings, sampleFlow]

/-- Claim C9: the health endpoint reports 200 exactly when the last
completed tick is within the 60-second health-timeout window, and 500
otherwise. -/
theorem httpHealthCheck_fresh_iff (lastPass now : ℤ) :
    (Solar.httpHealthCheck lastPass now = 200 ↔ now < lastPass + 60) ∧
    (Solar.httpHealthCheck lastPass now = 500 ↔ ¬ now < lastPass + 60) := by
  unfold Solar.httpHealthCheck
  split_ifs with h <;> simp_all

/-- Claim C3: when both the critical-temperature guard and the tank-full
guard hold on the same tick, the tick reports the critical reason and
increments the failsafe counter; the tank-full counter is not
incremented and the reduced-mode state is untouched (first guard in
priority order wins). -/
theorem guardPriority_critical_first (oracle : Solar.Oracle) (inv : Bool)
    (sensors : Solar.Sensors) (settings : Solar.Settings) (now : ℤ) (s : Solar.LoopState)
    (hcrit : sensors.SolarUp.Value ≥ settings.SolarCritical.Value)
    (_htank : sensors.TankUp.Value > settings.TankMax.Value) :
    (Solar.tick oracle inv sensors settings now s).failsafeInc = true ∧
    (Solar.tick oracle inv sensors settings now s).tankfullInc = false ∧
    (Solar.tick oracle inv sensors settings now s).heatescapeInc = false ∧
    (Solar.tick oracle inv sensors settings now s).stopCall =
      some (Solar.StopReason.criticalSolarTemperature sensors.SolarUp.Value) ∧
    (Solar.tick oracle inv sensors settings now s).state.mode = "failsafe shutdown" ∧
    (Solar.tick oracle inv sensors settings now s).state.reducedMode = s.reducedMode ∧
    (Solar.tick oracle inv sensors settings now s).state.reducedTill = s.reducedTill := by
  simp [Solar.tick, hcrit]

/-- Witness for C3: panel at 95 with `SolarCritical = 90` and tank at 70
with `TankMax = 60`. -/
theorem guardPriority_critical_first_witness :
    (Solar.tick okOracle false ⟨⟨95⟩, ⟨30⟩, ⟨30⟩, ⟨70⟩⟩ sampleSettings 0 initialState).failsafeInc = true ∧
    (Solar.tick okOracle false ⟨⟨95⟩, ⟨30⟩, ⟨30⟩, ⟨70⟩⟩ sampleSettings 0 initialState).tankfullInc = false ∧
    (Solar.tick okOracle false ⟨⟨95⟩, ⟨30⟩, ⟨30⟩, ⟨70⟩⟩ sampleSettings 0 initialState).heatescapeInc = false ∧
    (Solar.tick okOracle false ⟨⟨95⟩, ⟨30⟩, ⟨30⟩, ⟨70⟩⟩ sampleSettings 0 initialState).stopCall =
      some (Solar.StopReason.criticalSolarTemperature 95) ∧
    (Solar.tick okOracle false ⟨⟨95⟩, ⟨30⟩, ⟨30⟩, ⟨70⟩⟩ sampleSettings 0 initialState).state.mode = "failsafe shutdown" ∧
    (Solar.tick okOracle false ⟨⟨95⟩, ⟨30⟩, ⟨30⟩, ⟨70⟩⟩ sampleSettings 0 initialState).state.reducedMode = initialState.reducedMode ∧
    (Solar.tick okOracle false ⟨⟨95⟩, ⟨30⟩, ⟨30⟩, ⟨70⟩⟩ sampleSettings 0 initialState).state.reducedTill = initialState.reducedTill :=
  guardPriority_critical_first okOracle false ⟨⟨95⟩, ⟨30⟩, ⟨30⟩, ⟨70⟩⟩ sampleSettings 0 initialState
    (by norm_num [sampleSettings]) (by norm_num [sampleSettings])
/-- Claim C4: with a gateway that accepts every command, calling `stop`
twice in a row issues the pump-off / valve-off / flow-to-minimum
commands only on the first call (the second call is a no-op because the
circuit is already stopped), and calling `start` twice in a row issues
the pump-on / valve-on commands only on the first call. -/
theorem stop_start_idempotent (oracle : Solar.Oracle) (inv : Bool)
    (settings : Solar.Settings) (r : Bool) (ho : ∀ c, oracle c = true) :
    (Solar.stop oracle inv settings (Solar.stop oracle inv settings r).1).2 = [] ∧
    (Solar.start oracle (Solar.start oracle r).1).2 = [] ∧
    (Solar.stop oracle inv settings r).2 =
      (if r then [⟨Solar.Device.Pump, 0⟩, ⟨Solar.Device.Switch, 0⟩,
        Solar.setFlowCommand inv settings.Flow.DutyMin.Value] else []) ∧
    (Solar.start oracle r).2 =
      (if r then [] else [⟨Solar.Device.Pump, 1⟩, ⟨Solar.Device.Switch, 1⟩]) := by
  cases r <;> simp [Solar.stop, Solar.start, ho]

/-- Witness for C4 with the all-success oracle, from a running circuit
for `stop` and a stopped circuit for `start`. -/
theorem stop_start_idempotent_witness :
    (Solar.stop okOracle false sampleSettings (Solar.stop okOracle false sampleSettings true).1).2 = [] ∧
    (Solar.start okOracle (Solar.start okOracle false).1).2 = [] := by
  refine ⟨(stop_start_idempotent okOracle false sampleSettings true (fun _ => rfl)).1, ?_⟩
  exact (stop_start_idempotent okOracle false sampleSettings false (fun _ => rfl)).2.1

/-- Claim C5: when an actuator command fails during a `stop` or `start`
transition, the remaining commands of that transition are not issued and
`circuitRunning` is left unchanged; in particular a failing pump-off
leaves the circuit flagged as running with only the pump-off attempted. -/
theorem transition_abort_on_failure (oracle : Solar.Oracle) (inv : Bool)
    (settings : Solar.Settings) :
    (oracle ⟨Solar.Device.Pump, 0⟩ = false →
      Solar.stop oracle inv settings true = (true, [⟨Solar.Device.Pump, 0⟩])) ∧
    (oracle ⟨Solar.Device.Pump, 0⟩ = true → oracle ⟨Solar.Device.Switch, 0⟩ = false →
      Solar.stop oracle inv settings true =
        (true, [⟨Solar.Device.Pump, 0⟩, ⟨Solar.Device.Switch, 0⟩])) ∧
    (oracle ⟨Solar.Device.Pump, 0⟩ = true → oracle ⟨Solar.Device.Switch, 0⟩ = true →
      oracle (Solar.setFlowCommand inv settings.Flow.DutyMin.Value) = false →
      Solar.stop oracle inv settings true =
        (true, [⟨Solar.Device.Pump, 0⟩, ⟨Solar.Device.Switch, 0⟩,
          Solar.setFlowCommand inv settings.Flow.DutyMin.Value])) ∧
    (oracle ⟨Solar.Device.Pump, 1⟩ = false →
      Solar.start oracle false = (false, [⟨Solar.Device.Pump, 1⟩])) ∧
    (oracle ⟨Solar.Device.Pump, 1⟩ = true → oracle ⟨Solar.Device.Switch, 1⟩ = false →
      Solar.start oracle false =
        (false, [⟨Solar.Device.Pump, 1⟩, ⟨Solar.Device.Switch, 1⟩])) := by
  refine ⟨?_, ?_, ?_, ?_, ?_⟩ <;> intros <;> simp [Solar.stop, Solar.start, *]

/-- Witness for C5 with the all-failure oracle: a failing pump-off
aborts `stop` at once, a failing pump-on aborts `start` at once. -/
theorem transition_abort_on_failure_witness :
    Solar.stop (fun _ => false) false sampleSettings true = (true, [⟨Solar.Device.Pump, 0⟩]) ∧
    Solar.start (fun _ => false) false = (false, [⟨Solar.Device.Pump, 1⟩]) :=
  ⟨(transition_abort_on_failure (fun _ => false) false sampleSettings).1 rfl,
    (transition_abort_on_failure (fun _ => false) false sampleSettings).2.2.2.1 rfl⟩

/-- Claim C10: on a tick where no guard fires, `delta > SolarOff`, and
the start condition fails (`delta < SolarOn` or the panel not hotter
than the loop outlet), the tick still issues exactly one actuator write,
the flow command for `calculateFlow delta`, and `circuitRunning` is
unchanged. -/
theorem modulating_tick_flow_without_start (oracle : Solar.Oracle) (inv : Bool)
    (sensors : Solar.Sensors) (settings : Solar.Settings) (now : ℤ) (s : Solar.LoopState)
    (hg : Solar.guardsPass sensors settings)
    (hoff : Solar.delta sensors > settings.SolarOff.Value)
    (hns : Solar.delta sensors < settings.SolarOn.Value ∨
      sensors.SolarUp.Value ≤ sensors.SolarOut.Value) :
    (Solar.tick oracle inv sensors settings now s).commands =
      [Solar.setFlowCommand inv (Solar.calculateFlow settings (Solar.delta sensors))] ∧
    (Solar.tick oracle inv sensors settings now s).state.circuitRunning = s.circuitRunning ∧
    (Solar.tick oracle inv sensors settings now s).stopCall = none := by
  obtain ⟨hg1, hg2, hg3⟩ := hg
  have hc1 : ¬(sensors.SolarUp.Value ≥ settings.SolarCritical.Value) := not_le.mpr hg1
  have hc2 : ¬(sensors.TankUp.Value > settings.TankMax.Value) := not_lt.mpr hg2
  have hc3 : ¬(Solar.delta sensors < 0) := not_lt.mpr hg3
  have hc4 : ¬(Solar.delta sensors ≥ settings.SolarOn.Value ∧
      sensors.SolarUp.Value > sensors.SolarOut.Value) := by
    rcases hns with h | h
    · exact fun hh => absurd hh.1 (not_le.mpr h)
    · exact fun hh => absurd hh.2 (not_lt.mpr h)
  simp [Solar.tick, hc1, hc2, hc3, hc4, hoff]

/-- Witness for C10: delta `(40 + 32) / 2 - 30 = 6` is above
`SolarOff = 5` but below `SolarOn = 8`, so the circuit is not started
yet the flow command is still issued. -/
theorem modulating_tick_flow_without_start_witness :
    (Solar.tick okOracle false ⟨⟨40⟩, ⟨30⟩, ⟨32⟩, ⟨40⟩⟩ sampleSettings 0 initialState).commands =
      [Solar.setFlowCommand false (Solar.calculateFlow sampleSettings
        (Solar.delta ⟨⟨40⟩, ⟨30⟩, ⟨32⟩, ⟨40⟩⟩))] ∧
    (Solar.tick okOracle false ⟨⟨40⟩, ⟨30⟩, ⟨32⟩, ⟨40⟩⟩ sampleSettings 0 initialState).state.circuitRunning =
      initialState.circuitRunning ∧
    (Solar.tick okOracle false ⟨⟨40⟩, ⟨30⟩, ⟨32⟩, ⟨40⟩⟩ sampleSettings 0 initialState).stopCall = none :=
  modulating_tick_flow_without_start okOracle false ⟨⟨40⟩, ⟨30⟩, ⟨32⟩, ⟨40⟩⟩ sampleSettings 0 initialState
    (by constructor <;> norm_num [sampleSettings, Solar.delta])
    (by norm_num [sampleSettings, Solar.delta])
    (Or.inl (by norm_num [sampleSettings, Solar.delta]))
/-- Helper: on a guard-free modulating tick (`delta > SolarOff`) the
deadline `reducedTill` is pushed to `now + reductionDuration`, the
reduced flag is untouched and no stop is called. -/
theorem tick_modulating_state (oracle : Solar.Oracle) (inv : Bool) (sens : Solar.Sensors)
    (settings : Solar.Settings) (t : ℤ) (s : Solar.LoopState)
    (hg : Solar.guardsPass sens settings)
    (hd : Solar.delta sens > settings.SolarOff.Value) :
    (Solar.tick oracle inv sens settings t s).state.reducedTill = t + Solar.reductionDuration ∧
    (Solar.tick oracle inv sens settings t s).state.reducedMode = s.reducedMode ∧
    (Solar.tick oracle inv sens settings t s).stopCall = none := by
  obtain ⟨hg1, hg2, hg3⟩ := hg
  have hc1 : ¬(sens.SolarUp.Value ≥ settings.SolarCritical.Value) := not_le.mpr hg1
  have hc2 : ¬(sens.TankUp.Value > settings.TankMax.Value) := not_lt.mpr hg2
  have hc3 : ¬(Solar.delta sens < 0) := not_lt.mpr hg3
  simp [Solar.tick, hc1, hc2, hc3, hd]

/-- Helper: a guard-free tick in the reduced band with the reduced flag
not yet set issues the single flow-to-`DutyMin` command, raises the
reduced flag (on success), does not call `stop` and keeps the deadline
and the running flag. -/
theorem tick_reduced_entry (oracle : Solar.Oracle) (inv : Bool) (sens : Solar.Sensors)
    (settings : Solar.Settings) (t : ℤ) (s : Solar.LoopState)
    (hg : Solar.guardsPass sens settings)
    (hd : Solar.delta sens ≤ settings.SolarOff.Value)
    (ht : t < s.reducedTill) (hm : s.reducedMode = false) :
    Solar.tick oracle inv sens settings t s =
      { state :=
          { s with
              lastPass := t
              mode := "reduced mode"
              reducedMode := oracle (Solar.setFlowCommand inv settings.Flow.DutyMin.Value) }
        commands := [Solar.setFlowCommand inv settings.Flow.DutyMin.Value]
        stopCall := none
        failsafeInc := false, tankfullInc := false, heatescapeInc := false } := by
  obtain ⟨hg1, hg2, hg3⟩ := hg
  have hc1 : ¬(sens.SolarUp.Value ≥ settings.SolarCritical.Value) := not_le.mpr hg1
  have hc2 : ¬(sens.TankUp.Value > settings.TankMax.Value) := not_lt.mpr hg2
  have hc3 : ¬(Solar.delta sens < 0) := not_lt.mpr hg3
  have hc4 : ¬(Solar.delta sens > settings.SolarOff.Value) := not_lt.mpr hd
  simp [Solar.tick, hc1, hc2, hc3, hc4, ht, hm]

/-- Helper: a guard-free tick in the reduced band with the reduced flag
already set changes only `lastPass`: no commands, no stop call. -/
theorem tick_reduced_stay (oracle : Solar.Oracle) (inv : Bool) (sens : Solar.Sensors)
    (settings : Solar.Settings) (t : ℤ) (s : Solar.LoopState)
    (hg : Solar.guardsPass sens settings)
    (hd : Solar.delta sens ≤ settings.SolarOff.Value)
    (ht : t < s.reducedTill) (hm : s.reducedMode = true) :
    Solar.tick oracle inv sens settings t s =
      { state := { s with lastPass := t }, commands := [], stopCall := none
        failsafeInc := false, tankfullInc := false, heatescapeInc := false } := by
  obtain ⟨hg1, hg2, hg3⟩ := hg
  have hc1 : ¬(sens.SolarUp.Value ≥ settings.SolarCritical.Value) := not_le.mpr hg1
  have hc2 : ¬(sens.TankUp.Value > settings.TankMax.Value) := not_lt.mpr hg2
  have hc3 : ¬(Solar.delta sens < 0) := not_lt.mpr hg3
  have hc4 : ¬(Solar.delta sens > settings.SolarOff.Value) := not_lt.mpr hd
  simp [Solar.tick, hc1, hc2, hc3, hc4, ht, hm]

/-- Helper: a guard-free tick in the low-delta band at or after the
deadline clears the reduced flag and calls `stop` with the delta-too-low
reason, mode "stopped". -/
theorem tick_shutdown (oracle : Solar.Oracle) (inv : Bool) (sens : Solar.Sensors)
    (settings : Solar.Settings) (t : ℤ) (s : Solar.LoopState)
    (hg : Solar.guardsPass sens settings)
    (hd : Solar.delta sens ≤ settings.SolarOff.Value)
    (ht : s.reducedTill ≤ t) :
    (Solar.tick oracle inv sens settings t s).state.reducedMode = false ∧
    (Solar.tick oracle inv sens settings t s).stopCall =
      some (Solar.StopReason.deltaTooLow (Solar.delta sens)) ∧
    (Solar.tick oracle inv sens settings t s).state.mode = "stopped" := by
  obtain ⟨hg1, hg2, hg3⟩ := hg
  have hc1 : ¬(sens.SolarUp.Value ≥ settings.SolarCritical.Value) := not_le.mpr hg1
  have hc2 : ¬(sens.TankUp.Value > settings.TankMax.Value) := not_lt.mpr hg2
  have hc3 : ¬(Solar.delta sens < 0) := not_lt.mpr hg3
  have hc4 : ¬(Solar.delta sens > settings.SolarOff.Value) := not_lt.mpr hd
  have hc5 : ¬(t < s.reducedTill) := not_lt.mpr ht
  simp [Solar.tick, hc1, hc2, hc3, hc4, hc5]

/-- Helper: running any number of guard-free low-delta ticks before the
deadline with the reduced flag already set keeps the flag, the deadline
and the running flag, and produces neither commands nor stop calls. -/
theorem runTicks_reduced_invariant (oracle : Solar.Oracle) (inv : Bool)
    (settings : Solar.Settings) (L : List (ℤ × Solar.Sensors)) :
    ∀ s : Solar.LoopState, s.reducedMode = true →
    (∀ p ∈ L, Solar.guardsPass p.2 settings ∧
      Solar.delta p.2 ≤ settings.SolarOff.Value ∧ p.1 < s.reducedTill) →
    (Solar.runTicks oracle inv settings s L).1.reducedMode = true ∧
    (Solar.runTicks oracle inv settings s L).1.reducedTill = s.reducedTill ∧
    (Solar.runTicks oracle inv settings s L).1.circuitRunning = s.circuitRunning ∧
    ∀ r ∈ (Solar.runTicks oracle inv settings s L).2, r.stopCall = none ∧ r.commands = [] := by
  induction L with
  | nil =>
    intro s hm _
    simp [Solar.runTicks, hm]
  | cons p rest ih =>
    obtain ⟨t, sens⟩ := p
    intro s hm hL
    obtain ⟨hg, hd, ht⟩ := hL (t, sens) (List.mem_cons_self _ _)
    have htick := tick_reduced_stay oracle inv sens settings t s hg hd ht hm
    have hrest := ih { s with lastPass := t } (by simpa using hm)
      (by
        intro q hq
        simpa using hL q (List.mem_cons_of_mem _ hq))
    simp only [Solar.runTicks, htick] at *
    refine ⟨by simpa using hrest.1, by simpa using hrest.2.1, by simpa using hrest.2.2.1, ?_⟩
    intro r hr
    rcases List.mem_cons.mp hr with h | h
    · subst h; exact ⟨rfl, rfl⟩
    · exact hrest.2.2.2 r h
/-- Claim C6: after a modulating tick (`delta > SolarOff`) pushes the
deadline to `now + 30min`, a following guard-free tick with
`0 ≤ delta ≤ SolarOff` enters reduced mode — commanding flow `DutyMin`
once, with no stop call and the running flag untouched — every further
such tick before the deadline stays in reduced mode issuing nothing, and
the first such tick at or after the deadline clears the flag and calls
`stop` with the delta-too-low reason. -/
theorem reducedMode_window_behavior (oracle : Solar.Oracle) (inv : Bool)
    (settings : Solar.Settings) (s0 : Solar.LoopState)
    (t0 : ℤ) (sens0 : Solar.Sensors) (t1 : ℤ) (sens1 : Solar.Sensors)
    (L : List (ℤ × Solar.Sensors)) (tf : ℤ) (sensf : Solar.Sensors)
    (s1 : Solar.LoopState) (r1 : Solar.TickResult)
    (run : Solar.LoopState × List Solar.TickResult) (rf : Solar.TickResult)
    (ho : ∀ c, oracle c = true)
    (hm0 : s0.reducedMode = false)
    (hg0 : Solar.guardsPass sens0 settings)
    (hd0 : Solar.delta sens0 > settings.SolarOff.Value)
    (hg1 : Solar.guardsPass sens1 settings)
    (hd1 : Solar.delta sens1 ≤ settings.SolarOff.Value)
    (ht1 : t1 < t0 + Solar.reductionDuration)
    (hL : ∀ p ∈ L, Solar.guardsPass p.2 settings ∧
      Solar.delta p.2 ≤ settings.SolarOff.Value ∧ p.1 < t0 + Solar.reductionDuration)
    (hgf : Solar.guardsPass sensf settings)
    (hdf : Solar.delta sensf ≤ settings.SolarOff.Value)
    (htf : t0 + Solar.reductionDuration ≤ tf)
    (hs1 : s1 = (Solar.tick oracle inv sens0 settings t0 s0).state)
    (hr1 : r1 = Solar.tick oracle inv sens1 settings t1 s1)
    (hrun : run = Solar.runTicks oracle inv settings r1.state L)
    (hrf : rf = Solar.tick oracle inv sensf settings tf run.1) :
    s1.reducedTill = t0 + Solar.reductionDuration ∧
    s1.reducedMode = false ∧
    r1.commands = [Solar.setFlowCommand inv settings.Flow.DutyMin.Value] ∧
    r1.stopCall = none ∧
    r1.state.mode = "reduced mode" ∧
    r1.state.reducedMode = true ∧
    r1.state.circuitRunning = s1.circuitRunning ∧
    run.1.reducedMode = true ∧
    run.1.circuitRunning = r1.state.circuitRunning ∧
    (∀ r ∈ run.2, r.stopCall = none ∧ r.commands = []) ∧
    rf.state.reducedMode = false ∧
    rf.stopCall = some (Solar.StopReason.deltaTooLow (Solar.delta sensf)) ∧
    rf.state.mode = "stopped" := by
  have h0 := tick_modulating_state oracle inv sens0 settings t0 s0 hg0 hd0
  have hs1till : s1.reducedTill = t0 + Solar.reductionDuration := by
    rw [hs1]
    exact h0.1
  have hs1mode : s1.reducedMode = false := by
    rw [hs1, h0.2.1]
    exact hm0
  have hentry := tick_reduced_entry oracle inv sens1 settings t1 s1 hg1 hd1
    (by rw [hs1till]; exact ht1) hs1mode
  rw [hentry] at hr1
  have hr1cmds : r1.commands = [Solar.setFlowCommand inv settings.Flow.DutyMin.Value] := by
    rw [hr1]
  have hr1stop : r1.stopCall = none := by rw [hr1]
  have hr1modename : r1.state.mode = "reduced mode" := by rw [hr1]
  have hr1mode : r1.state.reducedMode = true := by
    rw [hr1]
    exact ho _
  have hr1run : r1.state.circuitRunning = s1.circuitRunning := by rw [hr1]
  have hr1till : r1.state.reducedTill = s1.reducedTill := by rw [hr1]
  have hinv := runTicks_reduced_invariant oracle inv settings L r1.state hr1mode
    (by
      intro p hp
      obtain ⟨a, b, c⟩ := hL p hp
      refine ⟨a, b, ?_⟩
      rw [hr1till, hs1till]
      exact c)
  have hruntill : run.1.reducedTill = t0 + Solar.reductionDuration := by
    rw [hrun, hinv.2.1, hr1till, hs1till]
  have hfinal := tick_shutdown oracle inv sensf settings tf run.1 hgf hdf
    (by rw [hruntill]; exact htf)
  refine ⟨hs1till, hs1mode, hr1cmds, hr1stop, hr1modename, hr1mode, hr1run, ?_, ?_, ?_, ?_, ?_, ?_⟩
  · rw [hrun]; exact hinv.1
  · rw [hrun]; exact hinv.2.2.1
  · rw [hrun]; exact hinv.2.2.2
  · rw [hrf]; exact hfinal.1
  · rw [hrf]; exact hfinal.2.1
  · rw [hrf]; exact hfinal.2.2

/-- Witness for C6 on the concrete run: modulating inputs at time 0,
reduced-band inputs at times 100 and 200, and the deadline tick at
time 1800. -/
theorem reducedMode_window_behavior_witness :
    tickHot0.state.reducedTill = 0 + Solar.reductionDuration ∧
    tickHot0.state.reducedMode = false ∧
    tickMild1.commands = [Solar.setFlowCommand false sampleSettings.Flow.DutyMin.Value] ∧
    tickMild1.stopCall = none ∧
    tickMild1.state.mode = "reduced mode" ∧
    tickMild1.state.reducedMode = true ∧
    tickMild1.state.circuitRunning = tickHot0.state.circuitRunning ∧
    runMild.1.reducedMode = true ∧
    runMild.1.circuitRunning = tickMild1.state.circuitRunning ∧
    (∀ r ∈ runMild.2, r.stopCall = none ∧ r.commands = []) ∧
    tickMildLate.state.reducedMode = false ∧
    tickMildLate.stopCall = some (Solar.StopReason.deltaTooLow (Solar.delta sampleSensorsMild)) ∧
    tickMildLate.state.mode = "stopped" :=
  reducedMode_window_behavior okOracle false sampleSettings initialState
    0 sampleSensorsHot 100 sampleSensorsMild [(200, sampleSensorsMild)] 1800 sampleSensorsMild
    tickHot0.state tickMild1 runMild tickMildLate
    (fun _ => rfl) rfl
    (by norm_num [Solar.guardsPass, Solar.delta, sampleSensorsHot, sampleSettings])
    (by norm_num [Solar.delta, sampleSensorsHot, sampleSettings])
    (by norm_num [Solar.guardsPass, Solar.delta, sampleSensorsMild, sampleSettings])
    (by norm_num [Solar.delta, sampleSensorsMild, sampleSettings])
    (by decide)
    (by
      intro p hp
      rw [List.mem_singleton] at hp
      subst hp
      refine ⟨?_, ?_, ?_⟩
      · norm_num [Solar.guardsPass, Solar.delta, sampleSensorsMild, sampleSettings]
      · norm_num [Solar.delta, sampleSensorsMild, sampleSettings]
      · decide)
    (by norm_num [Solar.guardsPass, Solar.delta, sampleSensorsMild, sampleSettings])
    (by norm_num [Solar.delta, sampleSensorsMild, sampleSettings])
    (by decide) rfl rfl rfl rfl

/-- Claim C1 counterexample: in the current revision (`src/cmd/main.go`)
the modulating branch calls `setFlow` unconditionally, so on two
consecutive ticks with identical sensor and settings values the second
tick again issues a flow-actuator write (here the flow command with
value 3), not an empty command list. -/
theorem mainLoop_duplicateFlowWrite_counterexample :
    tickHot1.commands = [⟨Solar.Device.Flow, 3⟩] ∧ tickHot1.commands ≠ [] := by
  have h : tickHot1.commands = [⟨Solar.Device.Flow, 3⟩] := by
    norm_num [tickHot1, tickHot0, Solar.tick, Solar.stop, Solar.start, okOracle,
      sampleSensorsHot, sampleSettings, sampleFlow, initialState, Solar.delta,
      Solar.calculateFlow, Solar.setFlowCommand, Solar.setFlowValue, Solar.reductionDuration]
  exact ⟨h, by simp [h]⟩

/-- Claim C1 (amended): the duplicate-write suppression lives in the
`part_001` revision: there, a modulating tick publishes the flow value
only when it differs from `lastFlow`, so feeding the same guard-free
modulating inputs twice in a row issues no publish at all on the second
tick. -/
theorem v1_identicalTicks_noDuplicateFlowPublish
    (sens : Solar.Sensors) (settings : Solar.Settings) (s : SolarV1.LoopState)
    (now1 now2 : ℤ)
    (h1 : sens.SolarUp.Value < settings.SolarCritical.Value)
    (h2 : sens.SolarOut.Value < sens.SolarUp.Value)
    (h3 : sens.TankUp.Value ≤ settings.TankMax.Value)
    (h4 : SolarV1.delta sens ≥ settings.SolarOff.Value) :
    (SolarV1.tick sens settings now2
      (SolarV1.tick sens settings now1 s).state).publishes = [] := by
  have hc1 : ¬(sens.SolarUp.Value ≥ settings.SolarCritical.Value) := not_le.mpr h1
  have hc2 : ¬(sens.SolarOut.Value ≥ sens.SolarUp.Value) := not_le.mpr h2
  have hc3 : ¬(sens.TankUp.Value > settings.TankMax.Value) := not_lt.mpr h3
  by_cases hstart : sens.SolarUp.Value - sens.SolarOut.Value > settings.SolarOn.Value <;>
    by_cases hfl : SolarV1.calculateFlow sens settings = s.lastFlow <;>
      cases hcr : s.circuitRunning <;>
        simp [SolarV1.tick, SolarV1.start, hc1, hc2, hc3, h4, hstart, hfl, hcr]

/-- Witness for the amended C1 on the concrete `part_001` run: the
second of two identical modulating ticks publishes nothing. -/
theorem v1_identicalTicks_noDuplicateFlowPublish_witness :
    v1Tick2.publishes = [] :=
  v1_identicalTicks_noDuplicateFlowPublish sampleSensorsHot sampleSettings v1State0 0 5
    (by norm_num [sampleSensorsHot, sampleSettings])
    (by norm_num [sampleSensorsHot])
    (by norm_num [sampleSensorsHot, sampleSettings])
    (by norm_num [SolarV1.delta, sampleSensorsHot, sampleSettings])

/-- Claim C7: the reduced flag is cleared only by the shutdown branch,
never by the modulating branch: after entering reduced mode, a
modulating tick leaves the flag set, so a following reduced-band tick
inside the freshly pushed window issues no command at all (in
particular, the flow actuator is not set to `DutyMin` again). -/
theorem reducedFlag_survives_modulating_branch (oracle : Solar.Oracle) (inv : Bool)
    (settings : Solar.Settings) (s0 : Solar.LoopState)
    (tA : ℤ) (sensA : Solar.Sensors) (tB : ℤ) (sensB : Solar.Sensors)
    (tC : ℤ) (sensC : Solar.Sensors)
    (sA sB : Solar.LoopState) (rC : Solar.TickResult)
    (ho : ∀ c, oracle c = true)
    (hm0 : s0.reducedMode = false)
    (hgA : Solar.guardsPass sensA settings)
    (hdA : Solar.delta sensA ≤ settings.SolarOff.Value)
    (htA : tA < s0.reducedTill)
    (hgB : Solar.guardsPass sensB settings)
    (hdB : Solar.delta sensB > settings.SolarOff.Value)
    (hgC : Solar.guardsPass sensC settings)
    (hdC : Solar.delta sensC ≤ settings.SolarOff.Value)
    (htC : tC < tB + Solar.reductionDuration)
    (hsA : sA = (Solar.tick oracle inv sensA settings tA s0).state)
    (hsB : sB = (Solar.tick oracle inv sensB settings tB sA).state)
    (hrC : rC = Solar.tick oracle inv sensC settings tC sB) :
    sA.reducedMode = true ∧
    sB.reducedMode = true ∧
    rC.commands = [] ∧
    rC.stopCall = none ∧
    rC.state.reducedMode = true := by
  have hA := tick_reduced_entry oracle inv sensA settings tA s0 hgA hdA htA hm0
  rw [hA] at hsA
  have hsAmode : sA.reducedMode = true := by
    rw [hsA]
    exact ho _
  have hB := tick_modulating_state oracle inv sensB settings tB sA hgB hdB
  have hsBmode : sB.reducedMode = true := by
    rw [hsB, hB.2.1]
    exact hsAmode
  have hsBtill : sB.reducedTill = tB + Solar.reductionDuration := by
    rw [hsB]
    exact hB.1
  have hC := tick_reduced_stay oracle inv sensC settings tC sB hgC hdC
    (by rw [hsBtill]; exact htC) hsBmode
  rw [hC] at hrC
  refine ⟨hsAmode, hsBmode, by rw [hrC], by rw [hrC], ?_⟩
  rw [hrC]
  exact hsBmode

/-- Witness for C7 on the concrete run: reduced entry at time 10,
modulating tick at time 20, reduced-band tick at time 30. -/
theorem reducedFlag_survives_modulating_branch_witness :
    tickC7A.state.reducedMode = true ∧
    tickC7B.state.reducedMode = true ∧
    tickC7C.commands = [] ∧
    tickC7C.stopCall = none ∧
    tickC7C.state.reducedMode = true :=
  reducedFlag_survives_modulating_branch okOracle false sampleSettings
    { initialState with reducedTill := 1000 }
    10 sampleSensorsMild 20 sampleSensorsHot 30 sampleSensorsMild
    tickC7A.state tickC7B.state tickC7C
    (fun _ => rfl) rfl
    (by norm_num [Solar.guardsPass, Solar.delta, sampleSensorsMild, sampleSettings])
    (by norm_num [Solar.delta, sampleSensorsMild, sampleSettings])
    (by decide)
    (by norm_num [Solar.guardsPass, Solar.delta, sampleSensorsHot, sampleSettings])
    (by norm_num [Solar.delta, sampleSensorsHot, sampleSettings])
    (by norm_num [Solar.guardsPass, Solar.delta, sampleSensorsMild, sampleSettings])
    (by norm_num [Solar.delta, sampleSensorsMild, sampleSettings])
    (by decide)
    rfl rfl rfl
